import Mathlib

/-!
Verification of the brandsnap-api orchestration layer.

This file gives a shallow embedding, in Lean 4, of the pure decision logic of
the brandsnap-api service:

* the retry/backoff loop shared by every image-generation entry point of
  `src/services/imagen.ts` (`generateBannerWithImagen`, `generateLogoWithImagen`,
  `generateIconWithImagen`), with the external image model abstracted as a
  trace of per-attempt outcomes;
* the prompt builders and style-guide tables of `src/services/imagen.ts` and
  `src/services/gemini.ts`;
* the JSON-extraction and default-substitution logic of `analyzeBrand` in
  `src/services/gemini.ts`, with the JavaScript `JSON.parse` builtin modelled
  by a small executable JSON parser;
* the `POST /api/generate` handler of `src/index.ts`, with the analyzer and
  the per-asset generators abstracted as injected results and the sleeps and
  external calls recorded as an explicit event list.

Theorems named `C1_...` to `C10_...` settle the frozen specification claims.
-/

set_option linter.unusedVariables false

set_option maxRecDepth 100000

namespace Brandsnap

/-- Decidable test that `pat` occurs as a contiguous sublist of the second
argument; used to model JavaScript `String.prototype.includes`. -/
def subList (pat : List Char) : List Char → Bool
  | [] => List.isPrefixOf pat []
  | c :: rest => List.isPrefixOf pat (c :: rest) || subList pat rest

/-- Model of JavaScript `s.includes(pat)` for the non-empty patterns used in
this development. -/
def strIncludes (s pat : String) : Bool :=
  subList pat.data s.data

/-- Outcome of one call to the external image model: a response whose parts
contain image data, a response with zero image parts, or a thrown transport
error carrying an optional HTTP status and a message. -/
inductive CallOutcome where
  | ok (imageData : String)
  | noImage
  | err (status : Option Nat) (message : String)
deriving Repr, DecidableEq

/-- Error value observed by the retry loop: the `status` field and `message`
of the caught JavaScript error. -/
structure GenError where
  status : Option Nat
  message : String
deriving Repr, DecidableEq

/-- Retry classification from the catch blocks of `src/services/imagen.ts`:
`error.status === 429 || error.status === 503 ||
error.message?.includes('overloaded')`. -/
def isRetryableError (e : GenError) : Bool :=
  e.status == some 429 || e.status == some 503 || strIncludes e.message "overloaded"

/-- Backoff delay `Math.pow(2, attempt + 1) * 2000` in milliseconds, where
`attempt` is the 0-indexed loop counter of `src/services/imagen.ts`. -/
def backoffMs (attempt : Nat) : Nat :=
  2 ^ (attempt + 1) * 2000

/-- Maximum number of attempts (`const maxRetries = 3`). -/
def maxRetries : Nat := 3

/-- Error thrown when a response has an image part list with no image data;
`generateBannerWithImagen` and `generateLogoWithImagen` throw
`new Error('No image data in response')`. -/
def errorOfOutcome (noImageMsg : String) : CallOutcome → Option GenError
  | CallOutcome.ok _ => none
  | CallOutcome.noImage => some ⟨none, noImageMsg⟩
  | CallOutcome.err s m => some ⟨s, m⟩

instance {ε α : Type} [DecidableEq ε] [DecidableEq α] : DecidableEq (Except ε α) := fun a b =>
  match a, b with
  | Except.ok a, Except.ok b =>
    if h : a = b then Decidable.isTrue (by rw [h]) else Decidable.isFalse (by simp [h])
  | Except.error a, Except.error b =>
    if h : a = b then Decidable.isTrue (by rw [h]) else Decidable.isFalse (by simp [h])
  | Except.ok _, Except.error _ => Decidable.isFalse (by simp)
  | Except.error _, Except.ok _ => Decidable.isFalse (by simp)

/-- Result of running a generation entry point against an outcome trace:
the returned data-URL or the propagated error, the number of attempts made,
and the list of backoff waits performed, in order. -/
structure LoopResult where
  outcome : Except GenError String
  attemptsMade : Nat
  waits : List Nat
deriving Repr, DecidableEq

/-- Body of the `for (let attempt = 0; attempt < maxRetries; attempt++)` loop
of `src/services/imagen.ts`: `trace n` is the outcome of the call made on
attempt `n` (0-indexed); a success returns the data URL immediately, a
retryable failure waits `backoffMs attempt` and continues, any other failure
breaks; once the loop is over, `throw lastError || new Error(failMsg)`. -/
def imagenAttemptsGo (noImageMsg failMsg : String) (trace : Nat → CallOutcome)
    (lastError : Option GenError) (attempt : Nat) : Nat → LoopResult
  | 0 => ⟨Except.error (lastError.getD ⟨none, failMsg⟩), attempt, []⟩
  | fuel + 1 =>
    match trace attempt with
    | CallOutcome.ok d => ⟨Except.ok ("data:image/png;base64," ++ d), attempt + 1, []⟩
    | CallOutcome.noImage =>
      let e : GenError := ⟨none, noImageMsg⟩
      if isRetryableError e then
        let r := imagenAttemptsGo noImageMsg failMsg trace (some e) (attempt + 1) fuel
        ⟨r.outcome, r.attemptsMade, backoffMs attempt :: r.waits⟩
      else ⟨Except.error e, attempt + 1, []⟩
    | CallOutcome.err s m =>
      let e : GenError := ⟨s, m⟩
      if isRetryableError e then
        let r := imagenAttemptsGo noImageMsg failMsg trace (some e) (attempt + 1) fuel
        ⟨r.outcome, r.attemptsMade, backoffMs attempt :: r.waits⟩
      else ⟨Except.error e, attempt + 1, []⟩

/-- Retry loop of an image-generation entry point, started at attempt 0 with
no last error and `maxRetries` remaining iterations. -/
def imagenAttempts (noImageMsg failMsg : String) (trace : Nat → CallOutcome) : LoopResult :=
  imagenAttemptsGo noImageMsg failMsg trace none 0 maxRetries

/-- Retry behaviour of `generateBannerWithImagen` as a function of the
per-attempt outcomes of the external call. -/
def generateBannerAttempts (trace : Nat → CallOutcome) : LoopResult :=
  imagenAttempts "No image data in response" "Image generation failed after retries" trace

/-- Retry behaviour of `generateLogoWithImagen`. -/
def generateLogoAttempts (trace : Nat → CallOutcome) : LoopResult :=
  imagenAttempts "No image data in response" "Logo generation failed after retries" trace

/-- Retry behaviour of `generateIconWithImagen`; its zero-image error message
is `'No icon data in response'`. -/
def generateIconAttempts (trace : Nat → CallOutcome) : LoopResult :=
  imagenAttempts "No icon data in response" "Favicon generation failed after retries" trace

example : generateBannerAttempts (fun _ => CallOutcome.ok "X") =
    ⟨Except.ok "data:image/png;base64,X", 1, []⟩ := rfl

example : generateBannerAttempts (fun _ => CallOutcome.err (some 429) "rate") =
    ⟨Except.error ⟨some 429, "rate"⟩, 3, [4000, 8000, 16000]⟩ := rfl

example : generateBannerAttempts (fun n => if n == 0 then CallOutcome.err (some 503) "busy"
      else CallOutcome.ok "Y") =
    ⟨Except.ok "data:image/png;base64,Y", 2, [4000]⟩ := rfl

example : generateBannerAttempts (fun _ => CallOutcome.err none "model is overloaded now") =
    ⟨Except.error ⟨none, "model is overloaded now"⟩, 3, [4000, 8000, 16000]⟩ := rfl

example : generateBannerAttempts (fun _ => CallOutcome.err (some 400) "bad request") =
    ⟨Except.error ⟨some 400, "bad request"⟩, 1, []⟩ := rfl

example : generateBannerAttempts (fun _ => CallOutcome.noImage) =
    ⟨Except.error ⟨none, "No image data in response"⟩, 1, []⟩ := rfl

/-- BrandAnalysis record from `src/types.ts`; optional interface fields become
`Option`, `industry : string | null` also becomes `Option`. -/
structure BrandAnalysis where
  brandName : String
  summary : String
  industry : Option String
  vibe : String
  brandColors : List String
  visualPrompt : String
  iconConcept : Option String
  visualMetaphors : Option (List String)
  slogan : Option String
  cta : Option String
  title : Option String
  twitterBio : Option String
  linkedinHeadline : Option String
deriving Repr, DecidableEq

/-- JavaScript `x || dflt` for an optional string `x`: absent and the empty
string are falsy. -/
def jsOr (v : Option String) (dflt : String) : String :=
  match v with
  | some s => if s = "" then dflt else s
  | none => dflt

/-- JavaScript `s || dflt` for a plain string `s`: the empty string is falsy. -/
def strOrJs (s : String) (dflt : String) : String :=
  if s = "" then dflt else s

/-- JavaScript `xs[i] || dflt` for a string array: an out-of-range access
yields `undefined` (falsy) and an empty-string element is falsy too. -/
def jsIndexOr (xs : List String) (i : Nat) (dflt : String) : String :=
  match xs.get? i with
  | some s => if s = "" then dflt else s
  | none => dflt

/-- Platform union type of `src/types.ts`. -/
inductive Platform where
  | twitter | linkedin | youtube | facebook | og
deriving Repr, DecidableEq

/-- String interpolation of a platform value into a template literal. -/
def Platform.name : Platform → String
  | Platform.twitter => "twitter"
  | Platform.linkedin => "linkedin"
  | Platform.youtube => "youtube"
  | Platform.facebook => "facebook"
  | Platform.og => "og"

/-- Style guide for the `minimal` tag in the Analyzer table of
`src/services/gemini.ts`. -/
def analyzerMinimalGuide : String :=
  "**STYLE: ULTRA-MINIMAL**
- Maximum whitespace or single color field
- One focal element, perfectly placed
- Monochromatic or 2 colors maximum
- Geometric purity: circles, lines, squares
- Apple or Muji aesthetic, sophisticated simplicity"

/-- Analyzer style-guide table `STYLE_GUIDES` of `src/services/gemini.ts`,
keyed by the style tag; a request can carry a tag outside the `Style` union
(the handler casts with `style as Style`), so the key is a plain string. -/
def STYLE_GUIDES : List (String × String) :=
  [("blueprint", "**STYLE: ORTHOGRAPHIC BLUEPRINT / SCHEMATIC**
- Full-width technical schematic on dark engineering background (#0a1628)
- Detailed white/cyan line drawings, grid lines, measurement annotations
- Show the brand concept as exploded technical diagrams
- CAD drawing or patent application aesthetic
- Precise, Technical, Architectural, Complex
- NO photorealism"),
   ("brutalism", "**STYLE: NEO-BRUTALISM / WEB AESTHETIC**
- Stark contrast, heavy black borders (4px+ strokes)
- Raw unpolished look, UI elements, browser windows, retro computer aesthetics
- High saturation neon colors against stark black/white
- Glitch artifacts, system fonts used decoratively
- Raw, Honest, Retro-future, Developer-centric"),
   ("isometric", "**STYLE: 3D ISOMETRIC RENDER**
- Sprawling miniature 3D world or complex machinery
- Strict 30-degree isometric perspective
- Soft global illumination, soft shadows, claymorphism/plastic sheen
- Show brand ecosystem as a 3D city, factory, or scene
- Playful, Tech-forward, Gamified, Detailed"),
   ("fluid", "**STYLE: ETHEREAL FLUID / ABSTRACT 3D**
- Liquid gradients, mesh gradients, glassmorphism
- Flowing abstract shapes suggesting motion and connectivity
- Deep iridescent colors, high-end gloss finish
- Futuristic, Premium, AI, Web3, Flowing aesthetic"),
   ("collage", "**STYLE: MIXED MEDIA DIGITAL COLLAGE**
- Edge-to-edge artistic composition
- Cut-out elements, ripped paper edges, halftone dots, grain textures
- Vintage imagery juxtaposed with modern tech elements
- Bold contrasting colors, desaturated photos mixed with vibrant vectors
- Artsy, Disruptive, Creative, Editorial"),
   ("explainer", "**STYLE: FLAT VECTOR / GRAPHIC EXPLAINER**
- \"Corporate Memphis\" style high-quality vector art
- Visual narrative scene spanning the banner width
- Characters using the product, or abstract service flow representations
- Pastel background with bold primary accents
- Friendly, Accessible, SaaS, Startup
- No shading, no gradients, pure flat vector"),
   ("minimal", analyzerMinimalGuide),
   ("gradient", "**STYLE: AURORA GRADIENT**
- Smooth flowing mesh gradients
- 3-4 colors blending seamlessly with depth
- Subtle grain texture overlay for organic feel
- iOS wallpaper or Stripe aesthetic
- Modern, Premium, Tech-forward"),
   ("geometric", "**STYLE: GEOMETRIC PATTERNS**
- Repeating or interlocking shapes, tessellations
- Bold color blocking within shapes
- Mathematical precision, perfect symmetry
- Op-art or Bauhaus influence
- Architectural, Data-driven aesthetic"),
   ("retro", "**STYLE: RETRO VINTAGE 70s-80s**
- Orange, brown, teal, cream color palette
- Halftone dots, sun rays, rounded corners
- Grain, scratches, aged paper texture
- Nostalgic warmth, analog feeling
- Vintage travel poster or record sleeve vibe")]

/-- Style-guide selection in `analyzeBrand` (`src/services/gemini.ts` line
105): `STYLE_GUIDES[style] || STYLE_GUIDES.minimal`. -/
def analyzerStyleGuide (style : String) : String :=
  (STYLE_GUIDES.lookup style).getD analyzerMinimalGuide

/-- Banner prompt of `generateBannerWithImagen` (`src/services/imagen.ts`
lines 45-68): a text-on-asset prompt that interpolates the raw style tag
after `**STYLE:** ` and uses no style-guide table. -/
def generateBannerPrompt (brandAnalysis : BrandAnalysis) (platform : Platform)
    (style : String) : String :=
  "Create a professional " ++ platform.name ++ " banner for \"" ++ brandAnalysis.brandName ++ "\".

**BRAND INFORMATION:**
- Brand Name: " ++ brandAnalysis.brandName ++ "
- Industry: " ++ jsOr brandAnalysis.industry "Technology" ++ "
- What they do: " ++ strOrJs brandAnalysis.summary "Modern digital service" ++ "

**EXACT TEXT TO DISPLAY ON THE BANNER (use these exact words):**
1. Brand Name (large): \"" ++ brandAnalysis.brandName ++ "\"
2. Tagline/Slogan: \"" ++ jsOr brandAnalysis.slogan "" ++ "\"
3. Call-to-Action button: \"" ++ jsOr brandAnalysis.cta "Get Started" ++ "\"

**STYLE:** " ++ style ++ "

**DESIGN REQUIREMENTS:**
- Display ALL three text elements prominently
- Brand name should be the largest text
- Slogan should be readable supporting text
- CTA should look like a button
- Wide landscape banner, fill the entire canvas
- Premium marketing asset quality
- 8K, highly detailed

**CRITICAL: Do NOT invent new slogans or taglines. Use EXACTLY the text provided above.**"

/-- Logo aesthetic for the `minimal` tag in the `logoStyles` table of
`generateLogoWithImagen`. -/
def logoMinimalStyle : String :=
  "Ultra-minimal logo, geometric monogram or wordmark, maximum whitespace, refined elegance"

/-- Style table `logoStyles` of `generateLogoWithImagen`
(`src/services/imagen.ts` lines 137-148). -/
def logoStyles : List (String × String) :=
  [("blueprint", "Technical, precise logo with thin lines, dark navy background, cyan accents, engineering/architect feel"),
   ("brutalism", "Bold neo-brutalist logo, heavy black strokes, stark contrast, raw geometric letterforms, punk energy"),
   ("isometric", "Isometric 3D logo mark with clean lettering, soft shadows, playful modern tech aesthetic"),
   ("fluid", "Ethereal glass-morphism logo, iridescent gradient mark, elegant thin typography, premium luxury feel"),
   ("collage", "Mixed media textured logo, layered paper-cut mark, artistic handcraft quality, creative agency vibe"),
   ("explainer", "Clean flat vector logo, friendly sans-serif type, minimal symbol, approachable SaaS aesthetic"),
   ("minimal", logoMinimalStyle),
   ("gradient", "Aurora gradient logo mark with clean modern type, smooth flowing colors, fintech/app aesthetic"),
   ("geometric", "Geometric pattern-based logo mark, interlocking shapes, mathematical precision, bold type"),
   ("retro", "Vintage retro logo, warm 70s-80s palette, rounded badge style, nostalgic hand-lettered feel")]

/-- Logo prompt of `generateLogoWithImagen` (`src/services/imagen.ts` lines
150-184); `primaryColor` and `secondaryColor` are the guarded
`brandColors[0] || '#3b82f6'` and `brandColors[1] || '#ffffff'` accesses and
are interpolated into the prompt. -/
def generateLogoPrompt (brandAnalysis : BrandAnalysis) (style : String) : String :=
  let primaryColor := jsIndexOr brandAnalysis.brandColors 0 "#3b82f6"
  let secondaryColor := jsIndexOr brandAnalysis.brandColors 1 "#ffffff"
  "Design a professional brand logo for \"" ++ brandAnalysis.brandName ++ "\".

**BRAND CONTEXT:**
- Brand Name: " ++ brandAnalysis.brandName ++ "
- Industry: " ++ jsOr brandAnalysis.industry "Technology" ++ "
- What they do: " ++ strOrJs brandAnalysis.summary "Modern digital service" ++ "
- Icon concept: " ++ jsOr brandAnalysis.iconConcept "abstract symbol representing the brand" ++ "

**LOGO REQUIREMENTS:**
- The brand name \"" ++ brandAnalysis.brandName ++ "\" MUST appear as text in the logo
- Combine a distinctive symbol/mark with the brand name text
- Think combination mark (symbol + wordmark together)
- Primary color: " ++ primaryColor ++ "
- Secondary color: " ++ secondaryColor ++ "
- Clean background (solid color or white)
- Square 1:1 format
- Must work at small sizes (social media profile pic) and large (website header)
- Professional, memorable, simple, distinctive
- Dribbble/Behance portfolio quality

**DESIGN STYLE:** " ++ (logoStyles.lookup style).getD logoMinimalStyle ++ "

**CRITICAL RULES:**
- The brand name \"" ++ brandAnalysis.brandName ++ "\" MUST be clearly readable as text
- Do NOT just create an icon — this is a LOGO with text
- Do NOT add taglines, slogans, or extra text beyond the brand name
- No stock photo elements, no clip art
- No busy backgrounds — keep it clean
- The mark/symbol should be unique to this brand
- Typography should feel intentional and styled, not default

**QUALITY:**
- Vector-like crisp edges
- High resolution
- Would look professional on a business card, website, or app store"

/-- Icon aesthetic for the `minimal` tag in the `iconStyles` table of
`generateIconWithImagen`. -/
def iconMinimalStyle : String :=
  "Ultra-minimal geometric icon, one shape, maximum whitespace"

/-- Style table `iconStyles` of `generateIconWithImagen`
(`src/services/imagen.ts` lines 242-253). -/
def iconStyles : List (String × String) :=
  [("blueprint", "Technical schematic icon, cyan lines on dark navy, circuit aesthetic"),
   ("brutalism", "Bold neo-brutalist icon, heavy black borders, neon accent, raw"),
   ("isometric", "Isometric 3D icon, soft shadows, claymorphism, playful tech"),
   ("fluid", "Ethereal glass icon, iridescent gradients, flowing organic shape"),
   ("collage", "Mixed media textured icon, paper-cut layers, artsy creative"),
   ("explainer", "Flat vector icon, clean minimal shapes, friendly SaaS aesthetic"),
   ("minimal", iconMinimalStyle),
   ("gradient", "Aurora gradient icon, smooth flowing colors, modern app style"),
   ("geometric", "Geometric pattern icon, interlocking shapes, mathematical"),
   ("retro", "Vintage retro icon, warm 70s colors, halftone texture, nostalgic")]

/-- Fixed color sentence of the icon prompt (`src/services/imagen.ts` line
261): the computed `primaryColor`/`secondaryColor` values are not
interpolated here. -/
def iconColorSentence : String :=
  "Use these colors in the design (do NOT display as text): primary color is a teal/green, secondary is dark navy."

/-- Icon prompt of `generateIconWithImagen` (`src/services/imagen.ts` lines
255-276); `primaryColor` and `secondaryColor` are computed with guarded
defaults but the template never interpolates them. -/
def generateIconPrompt (brandAnalysis : BrandAnalysis) (style : String) : String :=
  let primaryColor := jsIndexOr brandAnalysis.brandColors 0 "#3b82f6"
  let secondaryColor := jsIndexOr brandAnalysis.brandColors 1 "#ffffff"
  "Create a premium app icon for \"" ++ brandAnalysis.brandName ++ "\".

Brand: " ++ brandAnalysis.brandName ++ " - " ++ jsOr brandAnalysis.industry "Technology" ++ "
What they do: " ++ strOrJs brandAnalysis.summary "Digital service" ++ "
Icon concept: " ++ jsOr brandAnalysis.iconConcept "abstract symbol" ++ "

" ++ iconColorSentence ++ "

Style: " ++ (iconStyles.lookup style).getD iconMinimalStyle ++ "

Requirements:
- Square 1:1 format, works at 16px to 512px
- SINGLE distinctive symbol representing \"" ++ brandAnalysis.brandName ++ "\"
- Can include a stylized single letter from brand name if appropriate
- Strong silhouette, works in monochrome
- NO text, NO words, NO letters except possibly one stylized initial
- NO hex codes or color codes visible
- Centered with ~15% padding
- Crisp vector-like edges
- App Store quality

Critical: UNIQUE to this brand, not generic. Memorable and distinctive."

/-- JSON value. -/
inductive Json where
  | null
  | bool (b : Bool)
  | num (n : Int)
  | str (s : String)
  | arr (elems : List Json)
  | obj (fields : List (String × Json))
deriving Inhabited

/-- JSON whitespace characters. -/
def isJsonWs (c : Char) : Bool :=
  c == ' ' || c == '\t' || c == '\n' || c == '\r'

/-- Whitespace class of the JavaScript regex metacharacter `\s`, restricted
to its ASCII members. -/
def isRegexWs (c : Char) : Bool :=
  c == ' ' || c == '\t' || c == '\n' || c == '\r' || c == '\x0b' || c == '\x0c'

/-- Parse the body of a JSON string after its opening quote, returning the
decoded characters and the remainder after the closing quote; supports the
escapes used in this development (quote, backslash, slash, n, t, r, b, f). -/
def parseStringChars : Nat → List Char → Option (List Char × List Char)
  | 0, _ => none
  | fuel + 1, l =>
    match l with
    | [] => none
    | '"' :: rest => some ([], rest)
    | '\\' :: e :: rest =>
      let c? : Option Char :=
        match e with
        | '"' => some '"'
        | '\\' => some '\\'
        | '/' => some '/'
        | 'n' => some '\n'
        | 't' => some '\t'
        | 'r' => some '\r'
        | 'b' => some '\x08'
        | 'f' => some '\x0c'
        | _ => none
      match c? with
      | some c => (parseStringChars fuel rest).map (fun p => (c :: p.1, p.2))
      | none => none
    | c :: rest => (parseStringChars fuel rest).map (fun p => (c :: p.1, p.2))

/-- Parse a JSON integer literal (optional minus sign then digits); fraction
and exponent parts are not needed by any reply in this development. -/
def parseJsonNumber (l : List Char) : Option (Json × List Char) :=
  let p := match l with
    | '-' :: r => (true, r)
    | _ => (false, l)
  let ds := p.2.takeWhile Char.isDigit
  if ds.isEmpty then none
  else
    let n : Nat := ds.foldl (fun acc c => acc * 10 + (c.toNat - 48)) 0
    some (Json.num (if p.1 then -(n : Int) else (n : Int)), p.2.drop ds.length)

mutual

/-- Recursive-descent model of the `JSON.parse` builtin: parse one JSON value
and return the remainder. -/
def parseJsonValue : Nat → List Char → Option (Json × List Char)
  | 0, _ => none
  | fuel + 1, l =>
    match l.dropWhile isJsonWs with
    | 'n' :: 'u' :: 'l' :: 'l' :: rest => some (Json.null, rest)
    | 't' :: 'r' :: 'u' :: 'e' :: rest => some (Json.bool true, rest)
    | 'f' :: 'a' :: 'l' :: 's' :: 'e' :: rest => some (Json.bool false, rest)
    | '"' :: rest => (parseStringChars (fuel + 1) rest).map (fun p => (Json.str (String.mk p.1), p.2))
    | '[' :: rest => (parseJsonElems fuel rest).map (fun p => (Json.arr p.1, p.2))
    | '\x7b' :: rest => (parseJsonMembers fuel rest).map (fun p => (Json.obj p.1, p.2))
    | cs => parseJsonNumber cs

/-- Parse the elements of a JSON array after its opening bracket. -/
def parseJsonElems : Nat → List Char → Option (List Json × List Char)
  | 0, _ => none
  | fuel + 1, l =>
    match l.dropWhile isJsonWs with
    | ']' :: rest => some ([], rest)
    | l' => parseJsonElemsLoop fuel l'

/-- Parse `value (, value)* ]` inside a JSON array. -/
def parseJsonElemsLoop : Nat → List Char → Option (List Json × List Char)
  | 0, _ => none
  | fuel + 1, l =>
    match parseJsonValue fuel l with
    | none => none
    | some (v, r) =>
      match r.dropWhile isJsonWs with
      | ',' :: r2 => (parseJsonElemsLoop fuel r2).map (fun p => (v :: p.1, p.2))
      | ']' :: r2 => some ([v], r2)
      | _ => none

/-- Parse the members of a JSON object after its opening brace. -/
def parseJsonMembers : Nat → List Char → Option (List (String × Json) × List Char)
  | 0, _ => none
  | fuel + 1, l =>
    match l.dropWhile isJsonWs with
    | '\x7d' :: rest => some ([], rest)
    | l' => parseJsonMembersLoop fuel l'

/-- Parse `"key": value (, "key": value)* }` inside a JSON object. -/
def parseJsonMembersLoop : Nat → List Char → Option (List (String × Json) × List Char)
  | 0, _ => none
  | fuel + 1, l =>
    match l.dropWhile isJsonWs with
    | '"' :: rest =>
      match parseStringChars (fuel + 1) rest with
      | none => none
      | some (key, r) =>
        match r.dropWhile isJsonWs with
        | ':' :: r2 =>
          match parseJsonValue fuel r2 with
          | none => none
          | some (v, r3) =>
            match r3.dropWhile isJsonWs with
            | ',' :: r4 =>
              (parseJsonMembersLoop fuel r4).map (fun p => ((String.mk key, v) :: p.1, p.2))
            | '\x7d' :: r4 => some ([(String.mk key, v)], r4)
            | _ => none
        | _ => none
    | _ => none

end

/-- Model of `JSON.parse(s)`: `none` where the builtin throws (malformed
input or trailing non-whitespace). -/
def jsonParse (s : String) : Option Json :=
  match parseJsonValue (4 * s.length + 16) s.data with
  | some (v, rest) => if (rest.dropWhile isJsonWs).isEmpty then some v else none
  | none => none

/-- Split a character list at the first occurrence of `pat` (non-empty),
returning the part before it and the part after it. -/
def splitOnFirstOcc (pat : List Char) : List Char → Option (List Char × List Char)
  | [] => none
  | c :: rest =>
    if List.isPrefixOf pat (c :: rest) then some ([], (c :: rest).drop pat.length)
    else
      match splitOnFirstOcc pat rest with
      | some p => some (c :: p.1, p.2)
      | none => none

/-- Three backticks, the fence delimiter of the code-block regex. -/
def ticks : List Char := "```".data

/-- Optional `json` tag after the opening fence. -/
def jsonTag : List Char := "json".data

/-- Capture group of the regex `/(three backticks)(?:json)?\s*([^]*?)\s*(three
backticks)/` applied to `text`: the contents of the first fenced code block,
with the optional `json` tag and the surrounding whitespace stripped; `none`
when the regex does not match. -/
def codeBlockCapture (text : List Char) : Option (List Char) :=
  match splitOnFirstOcc ticks text with
  | none => none
  | some po =>
    let l1 := if List.isPrefixOf jsonTag po.2 then po.2.drop 4 else po.2
    let l2 := l1.dropWhile isRegexWs
    match splitOnFirstOcc ticks l2 with
    | none => none
    | some pc => some ((pc.1.reverse.dropWhile isRegexWs).reverse)

/-- Match of the greedy regex `/\x7b[^]*\x7d/` applied to `text`: the
substring running from the first left brace to the last right brace after it;
`none` when no such pair exists. -/
def braceMatch (text : List Char) : Option (List Char) :=
  match text.dropWhile (fun c => c != '\x7b') with
  | [] => none
  | b :: tail =>
    match tail.reverse.dropWhile (fun c => c != '\x7d') with
    | [] => none
    | keptRev => some (b :: keptRev.reverse)

/-- JSON extraction of `analyzeBrand` (`src/services/gemini.ts` lines
183-193): try the fenced code block first, else the brace-to-brace match,
else keep the raw text. -/
def extractJsonStr (text : String) : String :=
  match codeBlockCapture text.data with
  | some c => String.mk c
  | none =>
    match braceMatch text.data with
    | some m => String.mk m
    | none => text

/-- Field access `data.key` on a parsed JSON value: `undefined` (`none`) when
the value is not an object or lacks the key. -/
def jsGetField (data : Json) (key : String) : Option Json :=
  match data with
  | Json.obj fields => fields.lookup key
  | _ => none

/-- String-valued field access; every field consumed by `analyzeBrand` is a
string or absent in this development. -/
def jsStrField (data : Json) (key : String) : Option String :=
  match jsGetField data key with
  | some (Json.str s) => some s
  | _ => none

/-- JavaScript `data.key || dflt` for a string-valued field. -/
def jsStrFieldOr (data : Json) (key : String) (dflt : String) : String :=
  jsOr (jsStrField data key) dflt

/-- Array-of-strings field access for `data.brandColors`. -/
def jsStrArrField (data : Json) (key : String) : Option (List String) :=
  match jsGetField data key with
  | some (Json.arr xs) =>
    some (xs.filterMap (fun v => match v with | Json.str s => some s | _ => none))
  | _ => none

/-- Message of the error thrown by the catch block of `analyzeBrand`. -/
def analysisFailureMsg : String := "Failed to analyze brand. Please try again."

/-- Reply-processing tail of `analyzeBrand` (`src/services/gemini.ts` lines
179-213): `respText` is the text of the model response (`none` when absent);
`response.text || '\x7b\x7d'` substitutes an empty object literal, extraction
picks the JSON source, a parse failure raises the analysis error, and every
missing field of the parsed object is replaced by its named default. -/
def parseAnalysisReply (respText : Option String) : Except String BrandAnalysis :=
  let text := jsOr respText "\x7b\x7d"
  let jsonStr := extractJsonStr text
  match jsonParse jsonStr with
  | none => Except.error analysisFailureMsg
  | some data =>
    Except.ok {
      brandName := jsStrFieldOr data "brandName" "Brand"
      summary := jsStrFieldOr data "summary" "Modern digital service"
      industry := some (jsStrFieldOr data "industry" "Technology")
      vibe := jsStrFieldOr data "vibe" "Modern, Professional"
      brandColors := (jsStrArrField data "brandColors").getD ["#3b82f6", "#ffffff", "#000000"]
      visualPrompt := jsStrFieldOr data "visualPrompt" ""
      iconConcept := some (jsStrFieldOr data "iconConcept" "abstract symbol")
      visualMetaphors := none
      slogan := some (jsStrFieldOr data "slogan" "Innovation for everyone")
      cta := some (jsStrFieldOr data "cta" "Get Started")
      title := some (jsOr (jsStrField data "title") (jsStrFieldOr data "brandName" "Brand"))
      twitterBio := some (jsStrFieldOr data "twitterBio" "")
      linkedinHeadline := some (jsStrFieldOr data "linkedinHeadline" "")
    }

/-- All-default record produced from the empty object literal. -/
def defaultAnalysis : BrandAnalysis :=
  { brandName := "Brand"
    summary := "Modern digital service"
    industry := some "Technology"
    vibe := "Modern, Professional"
    brandColors := ["#3b82f6", "#ffffff", "#000000"]
    visualPrompt := ""
    iconConcept := some "abstract symbol"
    visualMetaphors := none
    slogan := some "Innovation for everyone"
    cta := some "Get Started"
    title := some "Brand"
    twitterBio := some ""
    linkedinHeadline := some "" }

example : jsonParse "\x7b\x7d" = some (Json.obj []) := rfl

example : jsonParse "\x7b \"a\": \"b\" \x7d" = some (Json.obj [("a", Json.str "b")]) := rfl

example : extractJsonStr "pre ```json\n\x7b\"a\":1\x7d\n``` post" = "\x7b\"a\":1\x7d" := rfl

example : extractJsonStr "Sure! \x7b\"a\":1\x7d done" = "\x7b\"a\":1\x7d" := rfl

example : parseAnalysisReply none = Except.ok defaultAnalysis := rfl

example : parseAnalysisReply (some "") = Except.ok defaultAnalysis := rfl

example : parseAnalysisReply (some "I cannot help with that") =
    Except.error analysisFailureMsg := rfl

/-- Platform entry of a request's `platforms` array, which may also name the
`favicon` and `logo` targets (`src/types.ts`). -/
inductive ReqPlatform where
  | plat (p : Platform)
  | favicon
  | logo
deriving Repr, DecidableEq

/-- Pixel dimensions of an asset. -/
structure Dimensions where
  width : Nat
  height : Nat
deriving Repr, DecidableEq

/-- Dimension table `PLATFORM_DIMENSIONS` of `src/types.ts`. -/
def PLATFORM_DIMENSIONS : ReqPlatform → Dimensions
  | ReqPlatform.plat Platform.twitter => ⟨1500, 500⟩
  | ReqPlatform.plat Platform.linkedin => ⟨1584, 396⟩
  | ReqPlatform.plat Platform.youtube => ⟨2560, 1440⟩
  | ReqPlatform.plat Platform.facebook => ⟨820, 312⟩
  | ReqPlatform.plat Platform.og => ⟨1200, 630⟩
  | ReqPlatform.favicon => ⟨512, 512⟩
  | ReqPlatform.logo => ⟨1024, 1024⟩

/-- Generated asset as pushed by the handler of `src/index.ts`. -/
structure GeneratedAsset where
  platform : ReqPlatform
  dimensions : Dimensions
  base64 : String
deriving Repr, DecidableEq

/-- Summarized view of the analysis returned in a success response
(`src/index.ts` lines 157-167). -/
structure BrandSummary where
  brandName : String
  summary : String
  industry : Option String
  vibe : String
  slogan : Option String
  cta : Option String
  brandColors : List String
  iconConcept : Option String
  visualPrompt : String
deriving Repr, DecidableEq

/-- Projection of a BrandAnalysis onto the response summary. -/
def summarizeAnalysis (a : BrandAnalysis) : BrandSummary :=
  { brandName := a.brandName
    summary := a.summary
    industry := a.industry
    vibe := a.vibe
    slogan := a.slogan
    cta := a.cta
    brandColors := a.brandColors
    iconConcept := a.iconConcept
    visualPrompt := a.visualPrompt }

/-- Response of `POST /api/generate`: HTTP 400 with `success:false`, HTTP 500
with `success:false`, or HTTP 200 with `success:true`, the assets and the
summarized analysis. -/
inductive ApiResponse where
  | badRequest (error : String)
  | serverError (error : String)
  | ok (assets : List GeneratedAsset) (brandAnalysis : BrandSummary)
deriving Repr, DecidableEq

/-- Observable step of the generation loop: a `wait(ms)` sleep or an external
image call. -/
inductive OrchEvent where
  | wait (ms : Nat)
  | callBanner (p : ReqPlatform)
  | callFavicon
deriving Repr, DecidableEq

/-- Body of `POST /api/generate` (`src/index.ts` line 59). -/
structure GenRequest where
  url : Option String
  description : Option String
  brandAnalysis : Option BrandAnalysis
  platforms : List ReqPlatform
  style : String
  customColors : Option (List String)
  includeFavicon : Bool
deriving Repr, DecidableEq

/-- Injected outcomes of the external collaborators: the analyzer call and
the per-platform generator calls, each after its own internal retries. -/
structure Collaborators where
  analyzerResult : Except String BrandAnalysis
  bannerResult : ReqPlatform → Except String String
  faviconResult : Except String String

/-- Observable outcome of one handler run: the HTTP response, how many times
the analyzer was invoked, which analysis drove generation, and the event
list of the generation loop. -/
structure HandlerOutcome where
  response : ApiResponse
  analyzerCalls : Nat
  usedAnalysis : Option BrandAnalysis
  events : List OrchEvent
deriving Repr, DecidableEq

/-- JavaScript truthiness of an optional string. -/
def jsTruthy (v : Option String) : Bool :=
  match v with
  | some s => s != ""
  | none => false

/-- Stagger delay `STAGGER_MS` of `src/index.ts`. -/
def STAGGER_MS : Nat := 500

/-- Banner loop of `src/index.ts` lines 116-126: for each platform, wait the
stagger delay, call the banner generator, and push the asset on success; a
failure is caught and skipped. -/
def runBanners (bannerResult : ReqPlatform → Except String String) :
    List ReqPlatform → List OrchEvent × List GeneratedAsset
  | [] => ([], [])
  | p :: rest =>
    let r := runBanners bannerResult rest
    match bannerResult p with
    | Except.ok b =>
      (OrchEvent.wait STAGGER_MS :: OrchEvent.callBanner p :: r.1,
       ⟨p, PLATFORM_DIMENSIONS p, b⟩ :: r.2)
    | Except.error _ =>
      (OrchEvent.wait STAGGER_MS :: OrchEvent.callBanner p :: r.1, r.2)

/-- Separation of the favicon entry from the banner platforms
(`src/index.ts` line 104): `platforms.filter(p => p !== 'favicon')`. -/
def bannerPlatformsOf (ps : List ReqPlatform) : List ReqPlatform :=
  ps.filter (fun p => p != ReqPlatform.favicon)

/-- Favicon decision (`src/index.ts` line 105):
`platforms.includes('favicon') || includeFavicon`. -/
def needsFaviconOf (ps : List ReqPlatform) (includeFavicon : Bool) : Bool :=
  ps.contains ReqPlatform.favicon || includeFavicon

/-- Generation phase of the handler (`src/index.ts` lines 101-168), run with
the analysis `a` after `analyzerCalls` analyzer invocations. -/
def generateStep (a : BrandAnalysis) (analyzerCalls : Nat) (req : GenRequest)
    (c : Collaborators) : HandlerOutcome :=
  let bannerPs := bannerPlatformsOf req.platforms
  let needsFav := needsFaviconOf req.platforms req.includeFavicon
  let bRes := runBanners c.bannerResult bannerPs
  let favPart : List OrchEvent × List GeneratedAsset :=
    if needsFav then
      match c.faviconResult with
      | Except.ok b =>
        ([OrchEvent.wait STAGGER_MS, OrchEvent.callFavicon],
         [⟨ReqPlatform.favicon, ⟨512, 512⟩, b⟩])
      | Except.error _ => ([OrchEvent.wait STAGGER_MS, OrchEvent.callFavicon], [])
    else ([], [])
  let assets := bRes.2 ++ favPart.2
  let events := bRes.1 ++ favPart.1
  if assets.length = 0 then
    ⟨ApiResponse.serverError "Failed to generate any images. Please try again.",
     analyzerCalls, some a, events⟩
  else
    ⟨ApiResponse.ok assets (summarizeAnalysis a), analyzerCalls, some a, events⟩

/-- Analysis phase when no usable pre-computed analysis was supplied: invoke
the analyzer once; its failure reaches the outer catch of the handler, which
answers HTTP 500 with `error.message || 'Generation failed. Please try
again.'`. -/
def analyzeThenGenerate (req : GenRequest) (c : Collaborators) : HandlerOutcome :=
  match c.analyzerResult with
  | Except.error msg =>
    ⟨ApiResponse.serverError (strOrJs msg "Generation failed. Please try again."), 1, none, []⟩
  | Except.ok a => generateStep a 1 req c

/-- Handler of `POST /api/generate` (`src/index.ts` lines 55-176): validate
the request, use the provided analysis when its `brandName` is truthy, else
analyze, then generate sequentially and aggregate. -/
def handleGenerate (req : GenRequest) (c : Collaborators) : HandlerOutcome :=
  if !jsTruthy req.url && !jsTruthy req.description && req.brandAnalysis.isNone then
    ⟨ApiResponse.badRequest "URL, description, or brandAnalysis required", 0, none, []⟩
  else if req.platforms.isEmpty then
    ⟨ApiResponse.badRequest "At least one platform required", 0, none, []⟩
  else
    match req.brandAnalysis with
    | some a => if a.brandName != "" then generateStep a 0 req c else analyzeThenGenerate req c
    | none => analyzeThenGenerate req c

/-- Concrete analysis used by the concrete witnesses below. -/
def acmeAnalysis : BrandAnalysis :=
  { brandName := "Acme Rockets"
    summary := "Space logistics startup"
    industry := some "Aerospace"
    vibe := "Bold, Technical"
    brandColors := ["#112233", "#ffffff"]
    visualPrompt := ""
    iconConcept := some "rocket"
    visualMetaphors := none
    slogan := some "To orbit and beyond"
    cta := some "Launch now"
    title := some "Acme Rockets"
    twitterBio := some ""
    linkedinHeadline := some "" }

example :
    handleGenerate
      { url := none, description := none, brandAnalysis := some acmeAnalysis
        platforms := [ReqPlatform.plat Platform.twitter, ReqPlatform.favicon]
        style := "minimal", customColors := none, includeFavicon := false }
      { analyzerResult := Except.error "unused"
        bannerResult := fun _ => Except.ok "B"
        faviconResult := Except.error "fail" } =
    { response := ApiResponse.ok
        [⟨ReqPlatform.plat Platform.twitter, ⟨1500, 500⟩, "B"⟩]
        (summarizeAnalysis acmeAnalysis)
      analyzerCalls := 0
      usedAnalysis := some acmeAnalysis
      events := [OrchEvent.wait 500, OrchEvent.callBanner (ReqPlatform.plat Platform.twitter),
                 OrchEvent.wait 500, OrchEvent.callFavicon] } := rfl

theorem imagenAttemptsGo_spec (noImageMsg failMsg : String) (trace : Nat → CallOutcome) :
    ∀ (fuel attempt : Nat) (lastError : Option GenError),
      attempt ≤ (imagenAttemptsGo noImageMsg failMsg trace lastError attempt fuel).attemptsMade ∧
      (imagenAttemptsGo noImageMsg failMsg trace lastError attempt fuel).attemptsMade ≤ attempt + fuel ∧
      ∃ k, k ≤ fuel ∧
        (imagenAttemptsGo noImageMsg failMsg trace lastError attempt fuel).waits =
          (List.range k).map (fun i => backoffMs (attempt + i)) := by
  intro fuel
  induction fuel with
  | zero =>
    intro attempt lastError
    refine ⟨?_, ?_, 0, ?_, ?_⟩ <;> simp [imagenAttemptsGo]
  | succ fuel ih =>
    intro attempt lastError
    simp only [imagenAttemptsGo]
    cases h : trace attempt with
    | ok d =>
      exact ⟨Nat.le_succ attempt,
        Nat.add_le_add_left (Nat.succ_le_succ (Nat.zero_le fuel)) attempt,
        0, Nat.zero_le _, rfl⟩
    | noImage =>
      dsimp only
      by_cases hr : isRetryableError ⟨none, noImageMsg⟩
      · rw [if_pos hr]
        obtain ⟨hlo, hhi, k, hk, hw⟩ := ih (attempt + 1) (some ⟨none, noImageMsg⟩)
        refine ⟨?_, ?_, k + 1, by omega, ?_⟩
        · dsimp only
          omega
        · dsimp only
          omega
        · dsimp only
          rw [hw, List.range_succ_eq_map, List.map_cons, List.map_map]
          refine congrArg₂ _ (by simp) ?_
          refine List.map_congr_left ?_
          intro i _
          simp only [Function.comp_apply]
          congr 1
          omega
      · rw [if_neg hr]
        exact ⟨Nat.le_succ attempt,
          Nat.add_le_add_left (Nat.succ_le_succ (Nat.zero_le fuel)) attempt,
          0, Nat.zero_le _, rfl⟩
    | err s m =>
      dsimp only
      by_cases hr : isRetryableError ⟨s, m⟩
      · rw [if_pos hr]
        obtain ⟨hlo, hhi, k, hk, hw⟩ := ih (attempt + 1) (some ⟨s, m⟩)
        refine ⟨?_, ?_, k + 1, by omega, ?_⟩
        · dsimp only
          omega
        · dsimp only
          omega
        · dsimp only
          rw [hw, List.range_succ_eq_map, List.map_cons, List.map_map]
          refine congrArg₂ _ (by simp) ?_
          refine List.map_congr_left ?_
          intro i _
          simp only [Function.comp_apply]
          congr 1
          omega
      · rw [if_neg hr]
        exact ⟨Nat.le_succ attempt,
          Nat.add_le_add_left (Nat.succ_le_succ (Nat.zero_le fuel)) attempt,
          0, Nat.zero_le _, rfl⟩

theorem imagenAttempts_first_error (noImageMsg failMsg : String) (trace : Nat → CallOutcome)
    (e : GenError) (h : errorOfOutcome noImageMsg (trace 0) = some e)
    (hr : isRetryableError e = false) :
    imagenAttempts noImageMsg failMsg trace = ⟨Except.error e, 1, []⟩ := by
  unfold imagenAttempts maxRetries
  rw [show (3 : Nat) = 2 + 1 from rfl, imagenAttemptsGo]
  cases ht : trace 0 with
  | ok d => simp [errorOfOutcome, ht] at h
  | noImage =>
    simp only [errorOfOutcome, ht, Option.some.injEq] at h
    subst h
    dsimp only
    rw [if_neg (by simp [hr])]
  | err s m =>
    simp only [errorOfOutcome, ht, Option.some.injEq] at h
    subst h
    dsimp only
    rw [if_neg (by simp [hr])]

theorem imagenAttemptsGo_ge_one (noImageMsg failMsg : String) (trace : Nat → CallOutcome)
    (fuel attempt : Nat) (lastError : Option GenError) (hf : 1 ≤ fuel) :
    attempt + 1 ≤ (imagenAttemptsGo noImageMsg failMsg trace lastError attempt fuel).attemptsMade := by
  cases fuel with
  | zero => omega
  | succ fuel =>
    simp only [imagenAttemptsGo]
    cases h : trace attempt with
    | ok d => exact Nat.le_refl (attempt + 1)
    | noImage =>
      dsimp only
      by_cases hr : isRetryableError ⟨none, noImageMsg⟩
      · rw [if_pos hr]
        have := (imagenAttemptsGo_spec noImageMsg failMsg trace fuel (attempt + 1)
          (some ⟨none, noImageMsg⟩)).1
        dsimp only
        omega
      · rw [if_neg hr]
    | err s m =>
      dsimp only
      by_cases hr : isRetryableError ⟨s, m⟩
      · rw [if_pos hr]
        have := (imagenAttemptsGo_spec noImageMsg failMsg trace fuel (attempt + 1)
          (some ⟨s, m⟩)).1
        dsimp only
        omega
      · rw [if_neg hr]

theorem imagenAttempts_first_retry (noImageMsg failMsg : String) (trace : Nat → CallOutcome)
    (e : GenError) (h : errorOfOutcome noImageMsg (trace 0) = some e)
    (hr : isRetryableError e = true) :
    2 ≤ (imagenAttempts noImageMsg failMsg trace).attemptsMade := by
  unfold imagenAttempts maxRetries
  rw [show (3 : Nat) = 2 + 1 from rfl, imagenAttemptsGo]
  cases ht : trace 0 with
  | ok d => simp [errorOfOutcome, ht] at h
  | noImage =>
    simp only [errorOfOutcome, ht, Option.some.injEq] at h
    subst h
    dsimp only
    rw [if_pos hr]
    have := imagenAttemptsGo_ge_one noImageMsg failMsg trace 2 (0 + 1)
      (some ⟨none, noImageMsg⟩) (by omega)
    dsimp only
    omega
  | err s m =>
    simp only [errorOfOutcome, ht, Option.some.injEq] at h
    subst h
    dsimp only
    rw [if_pos hr]
    have := imagenAttemptsGo_ge_one noImageMsg failMsg trace 2 (0 + 1)
      (some ⟨s, m⟩) (by omega)
    dsimp only
    omega

theorem imagenAttemptsGo_exhaust (nm fm : String) (trace : Nat → CallOutcome) :
    ∀ (fuel attempt : Nat) (e : GenError) (le : Option GenError),
      (∀ i, i < fuel → ∃ e2, errorOfOutcome nm (trace (attempt + i)) = some e2 ∧
        isRetryableError e2 = true) →
      (fuel = 0 → le = some e) →
      (0 < fuel → errorOfOutcome nm (trace (attempt + fuel - 1)) = some e) →
      (imagenAttemptsGo nm fm trace le attempt fuel).attemptsMade = attempt + fuel ∧
      (imagenAttemptsGo nm fm trace le attempt fuel).outcome = Except.error e := by
  intro fuel
  induction fuel with
  | zero =>
    intro attempt e le hall h0 hpos
    rw [h0 rfl]
    exact ⟨rfl, rfl⟩
  | succ fuel ih =>
    intro attempt e le hall h0 hpos
    obtain ⟨e0, he0, hr0⟩ := hall 0 (Nat.succ_pos fuel)
    rw [Nat.add_zero] at he0
    have hshift : ∀ i, i < fuel → ∃ e2,
        errorOfOutcome nm (trace (attempt + 1 + i)) = some e2 ∧ isRetryableError e2 = true := by
      intro i hi
      have := hall (i + 1) (by omega)
      have harith : attempt + (i + 1) = attempt + 1 + i := by omega
      rwa [harith] at this
    have htail : 0 < fuel → errorOfOutcome nm (trace (attempt + 1 + fuel - 1)) = some e := by
      intro hf
      have := hpos (Nat.succ_pos fuel)
      have harith : attempt + (fuel + 1) - 1 = attempt + 1 + fuel - 1 := by omega
      rwa [harith] at this
    have hzero : fuel = 0 → (some e0 : Option GenError) = some e := by
      intro hf
      subst hf
      have := hpos (Nat.succ_pos 0)
      simp only [Nat.add_sub_cancel] at this
      rw [he0] at this
      exact this
    obtain ⟨ihm, iho⟩ := ih (attempt + 1) e (some e0) hshift hzero htail
    simp only [imagenAttemptsGo]
    cases ht : trace attempt with
    | ok d => rw [ht] at he0; simp [errorOfOutcome] at he0
    | noImage =>
      rw [ht] at he0
      simp only [errorOfOutcome, Option.some.injEq] at he0
      subst he0
      dsimp only
      rw [if_pos hr0]
      refine ⟨?_, ?_⟩
      · dsimp only
        omega
      · dsimp only
        exact iho
    | err s m =>
      rw [ht] at he0
      simp only [errorOfOutcome, Option.some.injEq] at he0
      subst he0
      dsimp only
      rw [if_pos hr0]
      refine ⟨?_, ?_⟩
      · dsimp only
        omega
      · dsimp only
        exact iho

/-- Claim C1 counterexample: on a trace whose first call returns a response
with zero image parts and whose second call would succeed, the banner loop
stops after a single attempt with the error `'No image data in response'`
instead of retrying under the backoff schedule, and the icon loop raises
`'No icon data in response'`, not `'No image data in response'`. -/
theorem C1_counterexample :
    generateBannerAttempts (fun n => if n == 0 then CallOutcome.noImage else CallOutcome.ok "X") =
      ⟨Except.error ⟨none, "No image data in response"⟩, 1, []⟩ ∧
    generateIconAttempts (fun n => if n == 0 then CallOutcome.noImage else CallOutcome.ok "X") =
      ⟨Except.error ⟨none, "No icon data in response"⟩, 1, []⟩ := ⟨rfl, rfl⟩

/-- Claim C1, amended: when the external response contains zero image parts,
`generateBannerWithImagen` and `generateLogoWithImagen` raise
`'No image data in response'` and `generateIconWithImagen` raises
`'No icon data in response'`; this failure is not retryable: each call aborts
after that single attempt, performs no backoff wait, and propagates the
error to the caller. -/
theorem C1_no_image_aborts (trace : Nat → CallOutcome)
    (h : trace 0 = CallOutcome.noImage) :
    generateBannerAttempts trace =
      ⟨Except.error ⟨none, "No image data in response"⟩, 1, []⟩ ∧
    generateLogoAttempts trace =
      ⟨Except.error ⟨none, "No image data in response"⟩, 1, []⟩ ∧
    generateIconAttempts trace =
      ⟨Except.error ⟨none, "No icon data in response"⟩, 1, []⟩ := by
  refine ⟨?_, ?_, ?_⟩ <;>
    exact imagenAttempts_first_error _ _ trace _ (by rw [h]; rfl) (by decide)

/-- Witness for C1_no_image_aborts at the constant zero-image trace. -/
theorem C1_no_image_aborts_witness :
    generateBannerAttempts (fun _ => CallOutcome.noImage) =
      ⟨Except.error ⟨none, "No image data in response"⟩, 1, []⟩ ∧
    generateLogoAttempts (fun _ => CallOutcome.noImage) =
      ⟨Except.error ⟨none, "No image data in response"⟩, 1, []⟩ ∧
    generateIconAttempts (fun _ => CallOutcome.noImage) =
      ⟨Except.error ⟨none, "No icon data in response"⟩, 1, []⟩ :=
  C1_no_image_aborts (fun _ => CallOutcome.noImage) rfl

/-- Claim C2 counterexample: after a retryable failure on attempt 1
(1-indexed), the loop waits 4000 ms, not the `2 ^ (1 + 1) * 2000 = 8000` ms
the claim requires. -/
theorem C2_counterexample :
    (generateBannerAttempts (fun n => if n == 0 then CallOutcome.err (some 429) "rate limited"
        else CallOutcome.ok "X")).waits = [4000] ∧
    (4000 : Nat) ≠ 2 ^ (1 + 1) * 2000 := ⟨rfl, by decide⟩

/-- Claim C2, amended: after a retryable failure on attempt `n` (1-indexed)
the service waits exactly `2 ^ n * 2000` milliseconds (the code computes
`2 ^ (attempt + 1) * 2000` with a 0-indexed counter), so the waits performed
are a prefix of 4000, 8000, 16000 ms, and no more than 3 attempts are ever
made per call. -/
theorem C2_backoff_schedule (noImageMsg failMsg : String) (trace : Nat → CallOutcome) :
    (imagenAttempts noImageMsg failMsg trace).attemptsMade ≤ 3 ∧
    ∃ k, k ≤ 3 ∧
      (imagenAttempts noImageMsg failMsg trace).waits =
        (List.range k).map (fun i => 2 ^ (i + 1) * 2000) := by
  obtain ⟨h1, h2, k, hk, hw⟩ :=
    imagenAttemptsGo_spec noImageMsg failMsg trace maxRetries 0 none
  unfold imagenAttempts
  refine ⟨by simpa [maxRetries] using h2, k, by simpa [maxRetries] using hk, ?_⟩
  rw [hw]
  simp [backoffMs]

/-- Claim C3: an error with status 429, status 503, or `'overloaded'` in its
message triggers a retry (a second attempt is made); any other error aborts
the call after that single attempt and is propagated unchanged; and when all
three attempts fail with retryable errors, the last observed error is
propagated. -/
theorem C3_retry_classification :
    (∀ (noImageMsg failMsg : String) (trace : Nat → CallOutcome) (s : Option Nat) (m : String),
      trace 0 = CallOutcome.err s m →
      (s = some 429 ∨ s = some 503 ∨ strIncludes m "overloaded" = true) →
      2 ≤ (imagenAttempts noImageMsg failMsg trace).attemptsMade) ∧
    (∀ (noImageMsg failMsg : String) (trace : Nat → CallOutcome) (s : Option Nat) (m : String),
      trace 0 = CallOutcome.err s m →
      s ≠ some 429 → s ≠ some 503 → strIncludes m "overloaded" = false →
      imagenAttempts noImageMsg failMsg trace = ⟨Except.error ⟨s, m⟩, 1, []⟩) ∧
    (∀ (noImageMsg failMsg : String) (trace : Nat → CallOutcome) (e0 e1 e2 : GenError),
      trace 0 = CallOutcome.err e0.status e0.message →
      trace 1 = CallOutcome.err e1.status e1.message →
      trace 2 = CallOutcome.err e2.status e2.message →
      isRetryableError e0 = true → isRetryableError e1 = true → isRetryableError e2 = true →
      (imagenAttempts noImageMsg failMsg trace).outcome = Except.error e2 ∧
      (imagenAttempts noImageMsg failMsg trace).attemptsMade = 3) := by
  refine ⟨?_, ?_, ?_⟩
  · intro nm fm trace s m h hsig
    apply imagenAttempts_first_retry nm fm trace ⟨s, m⟩ (by rw [h]; rfl)
    simp only [isRetryableError, Bool.or_eq_true, beq_iff_eq]
    rcases hsig with h1 | h1 | h1
    · exact Or.inl (Or.inl h1)
    · exact Or.inl (Or.inr h1)
    · exact Or.inr h1
  · intro nm fm trace s m h h429 h503 hov
    apply imagenAttempts_first_error nm fm trace ⟨s, m⟩ (by rw [h]; rfl)
    simp only [isRetryableError, Bool.or_eq_false_iff, beq_eq_false_iff_ne, ne_eq]
    exact ⟨⟨h429, h503⟩, hov⟩
  · intro nm fm trace e0 e1 e2 h0 h1 h2 r0 r1 r2
    have := imagenAttemptsGo_exhaust nm fm trace 3 0 e2 none ?_ (by omega) ?_
    · exact ⟨this.2, this.1⟩
    · intro i hi
      interval_cases i
      · exact ⟨e0, by rw [Nat.add_zero, h0]; rfl, r0⟩
      · exact ⟨e1, by rw [show (0 + 1 : Nat) = 1 from rfl, h1]; rfl, r1⟩
      · exact ⟨e2, by rw [show (0 + 2 : Nat) = 2 from rfl, h2]; rfl, r2⟩
    · intro _
      rw [show (0 + 3 - 1 : Nat) = 2 from rfl, h2]
      rfl

/-- Witness for C3_retry_classification on concrete traces: a 429 error is
retried, a 400 error aborts immediately with the error propagated, and three
retryable failures propagate the last error after exactly 3 attempts. -/
theorem C3_retry_classification_witness :
    2 ≤ (generateBannerAttempts (fun n => if n == 0 then CallOutcome.err (some 429) "rate"
        else CallOutcome.ok "X")).attemptsMade ∧
    generateBannerAttempts (fun _ => CallOutcome.err (some 400) "bad request") =
      ⟨Except.error ⟨some 400, "bad request"⟩, 1, []⟩ ∧
    (generateBannerAttempts (fun n => CallOutcome.err (some 503) (toString n))).outcome =
      Except.error ⟨some 503, "2"⟩ ∧
    (generateBannerAttempts (fun n => CallOutcome.err (some 503) (toString n))).attemptsMade = 3 := by
  refine ⟨?_, ?_, ?_, ?_⟩
  · exact C3_retry_classification.1 _ _ _ (some 429) "rate" rfl (Or.inl rfl)
  · exact C3_retry_classification.2.1 _ _ _ (some 400) "bad request" rfl
      (by decide) (by decide) (by decide)
  · exact (C3_retry_classification.2.2 _ _ _ ⟨some 503, "0"⟩ ⟨some 503, "1"⟩ ⟨some 503, "2"⟩
      rfl rfl rfl (by decide) (by decide) (by decide)).1
  · exact (C3_retry_classification.2.2 _ _ _ ⟨some 503, "0"⟩ ⟨some 503, "1"⟩ ⟨some 503, "2"⟩
      rfl rfl rfl (by decide) (by decide) (by decide)).2

/-- Test whether a collaborator call failed. -/
def isErr (r : Except String String) : Bool :=
  match r with
  | Except.ok _ => false
  | Except.error _ => true

/-- Assets produced by the successful banner calls, in request order. -/
def successfulBannerAssets (bannerResult : ReqPlatform → Except String String)
    (ps : List ReqPlatform) : List GeneratedAsset :=
  ps.filterMap (fun p =>
    match bannerResult p with
    | Except.ok b => some ⟨p, PLATFORM_DIMENSIONS p, b⟩
    | Except.error _ => none)

/-- Asset produced by the favicon call when it succeeds. -/
def faviconAssets (fav : Except String String) : List GeneratedAsset :=
  match fav with
  | Except.ok b => [⟨ReqPlatform.favicon, ⟨512, 512⟩, b⟩]
  | Except.error _ => []

/-- Every asset a request should yield given the collaborator outcomes. -/
def expectedAssets (req : GenRequest) (c : Collaborators) : List GeneratedAsset :=
  successfulBannerAssets c.bannerResult (bannerPlatformsOf req.platforms) ++
    (if needsFaviconOf req.platforms req.includeFavicon then faviconAssets c.faviconResult
     else [])

/-- Number of per-asset generation calls a request makes. -/
def attemptedCalls (req : GenRequest) : Nat :=
  (bannerPlatformsOf req.platforms).length +
    (if needsFaviconOf req.platforms req.includeFavicon then 1 else 0)

/-- Number of those calls that fail. -/
def failedCalls (req : GenRequest) (c : Collaborators) : Nat :=
  (bannerPlatformsOf req.platforms).countP (fun p => isErr (c.bannerResult p)) +
    (if needsFaviconOf req.platforms req.includeFavicon && isErr c.faviconResult then 1
     else 0)

theorem runBanners_snd (bannerResult : ReqPlatform → Except String String) :
    ∀ ps, (runBanners bannerResult ps).2 = successfulBannerAssets bannerResult ps := by
  intro ps
  induction ps with
  | nil => rfl
  | cons p rest ih =>
    simp only [runBanners, successfulBannerAssets, List.filterMap_cons] at ih ⊢
    cases h : bannerResult p <;> simp [h, ih]

theorem runBanners_fst (bannerResult : ReqPlatform → Except String String) :
    ∀ ps, (runBanners bannerResult ps).1 =
      ps.flatMap (fun p => [OrchEvent.wait STAGGER_MS, OrchEvent.callBanner p]) := by
  intro ps
  induction ps with
  | nil => rfl
  | cons p rest ih =>
    simp only [runBanners, List.flatMap_cons] at ih ⊢
    cases h : bannerResult p <;> simp [h, ih]

theorem isErr_ok (b : String) : isErr (Except.ok b) = false := rfl

theorem isErr_error (e : String) : isErr (Except.error e) = true := rfl

theorem successfulBannerAssets_length (bannerResult : ReqPlatform → Except String String) :
    ∀ ps, (successfulBannerAssets bannerResult ps).length +
      ps.countP (fun p => isErr (bannerResult p)) = ps.length := by
  intro ps
  induction ps with
  | nil => rfl
  | cons p rest ih =>
    cases h : bannerResult p with
    | ok b =>
      have e1 : successfulBannerAssets bannerResult (p :: rest) =
          ⟨p, PLATFORM_DIMENSIONS p, b⟩ :: successfulBannerAssets bannerResult rest := by
        simp [successfulBannerAssets, List.filterMap_cons, h]
      have e2 : (p :: rest).countP (fun q => isErr (bannerResult q)) =
          rest.countP (fun q => isErr (bannerResult q)) := by
        simp [List.countP_cons, h, isErr_ok]
      rw [e1, e2, List.length_cons, List.length_cons]
      omega
    | error e =>
      have e1 : successfulBannerAssets bannerResult (p :: rest) =
          successfulBannerAssets bannerResult rest := by
        simp [successfulBannerAssets, List.filterMap_cons, h]
      have e2 : (p :: rest).countP (fun q => isErr (bannerResult q)) =
          rest.countP (fun q => isErr (bannerResult q)) + 1 := by
        simp [List.countP_cons, h, isErr_error]
      rw [e1, e2, List.length_cons]
      omega

theorem generateStep_response (a : BrandAnalysis) (k : Nat) (req : GenRequest)
    (c : Collaborators) :
    (generateStep a k req c).response =
      if expectedAssets req c = [] then
        ApiResponse.serverError "Failed to generate any images. Please try again."
      else ApiResponse.ok (expectedAssets req c) (summarizeAnalysis a) := by
  simp only [generateStep, apply_ite ApiResponse.ok, apply_ite HandlerOutcome.response]
  by_cases hf : needsFaviconOf req.platforms req.includeFavicon
  · cases hfav : c.faviconResult with
    | ok b =>
      simp [expectedAssets, faviconAssets, runBanners_snd, hf, hfav, List.length_eq_zero]
    | error e =>
      simp [expectedAssets, faviconAssets, runBanners_snd, hf, hfav, List.length_eq_zero]
  · simp [expectedAssets, runBanners_snd, hf, List.length_eq_zero]

theorem generateStep_calls (a : BrandAnalysis) (k : Nat) (req : GenRequest)
    (c : Collaborators) :
    (generateStep a k req c).analyzerCalls = k ∧
    (generateStep a k req c).usedAnalysis = some a := by
  refine ⟨?_, ?_⟩ <;>
    simp only [generateStep, apply_ite HandlerOutcome.analyzerCalls,
      apply_ite HandlerOutcome.usedAnalysis, ite_self]

theorem generateStep_events (a : BrandAnalysis) (k : Nat) (req : GenRequest)
    (c : Collaborators) :
    (generateStep a k req c).events =
      (bannerPlatformsOf req.platforms).flatMap
        (fun p => [OrchEvent.wait STAGGER_MS, OrchEvent.callBanner p]) ++
      (if needsFaviconOf req.platforms req.includeFavicon then
        [OrchEvent.wait STAGGER_MS, OrchEvent.callFavicon] else []) := by
  simp only [generateStep, apply_ite HandlerOutcome.events, ite_self, runBanners_fst]
  by_cases hf : needsFaviconOf req.platforms req.includeFavicon
  · cases hfav : c.faviconResult <;> simp [hf, hfav]
  · simp [hf]

theorem handleGenerate_provided (req : GenRequest) (c : Collaborators) (a : BrandAnalysis)
    (hba : req.brandAnalysis = some a) (hname : a.brandName ≠ "") (hp : req.platforms ≠ []) :
    handleGenerate req c = generateStep a 0 req c := by
  unfold handleGenerate
  have h1 : (!jsTruthy req.url && !jsTruthy req.description && req.brandAnalysis.isNone) = false := by
    rw [hba]
    simp
  have h2 : req.platforms.isEmpty = false := by
    cases hq : req.platforms with
    | nil => exact absurd hq hp
    | cons x xs => rfl
  rw [h1, h2]
  simp only [Bool.false_eq_true, if_false, hba]
  rw [if_pos (bne_iff_ne.mpr hname)]

theorem handleGenerate_analyzes (req : GenRequest) (c : Collaborators)
    (hvalid : (jsTruthy req.url || jsTruthy req.description || req.brandAnalysis.isSome) = true)
    (hp : req.platforms ≠ [])
    (hno : ∀ a, req.brandAnalysis = some a → a.brandName = "") :
    handleGenerate req c = analyzeThenGenerate req c := by
  unfold handleGenerate
  have h2 : req.platforms.isEmpty = false := by
    cases hq : req.platforms with
    | nil => exact absurd hq hp
    | cons x xs => rfl
  cases hb : req.brandAnalysis with
  | none =>
    rw [hb] at hvalid
    simp only [Option.isSome_none, Bool.or_false, Bool.or_eq_true] at hvalid
    have h1 : (!jsTruthy req.url && !jsTruthy req.description) = false := by
      rcases hvalid with h | h <;> simp [h]
    simp only [Option.isNone_none, Bool.and_true, h1, Bool.false_eq_true, if_false, h2]
  | some a =>
    simp only [Option.isNone_some, Bool.and_false, Bool.false_eq_true, if_false, h2]
    rw [if_neg]
    intro hbn
    exact absurd (hno a hb) (bne_iff_ne.mp hbn)

theorem analyzeThenGenerate_calls (req : GenRequest) (c : Collaborators) :
    (analyzeThenGenerate req c).analyzerCalls = 1 := by
  unfold analyzeThenGenerate
  cases h : c.analyzerResult with
  | ok a => exact (generateStep_calls a 1 req c).1
  | error msg => rfl


/-- Claim C4: for a request whose per-asset calls number `attemptedCalls` (N)
of which `failedCalls` (K) fail, the handler returns a success response with
exactly the N − K assets that succeeded when K < N, and an HTTP 500
`success:false` response when K = N. -/
theorem C4_partial_failure (req : GenRequest) (c : Collaborators) (a : BrandAnalysis)
    (hba : req.brandAnalysis = some a) (hname : a.brandName ≠ "") (hp : req.platforms ≠ []) :
    (expectedAssets req c).length + failedCalls req c = attemptedCalls req ∧
    (failedCalls req c < attemptedCalls req →
      (handleGenerate req c).response =
        ApiResponse.ok (expectedAssets req c) (summarizeAnalysis a)) ∧
    (failedCalls req c = attemptedCalls req →
      (handleGenerate req c).response =
        ApiResponse.serverError "Failed to generate any images. Please try again.") := by
  have hb := successfulBannerAssets_length c.bannerResult (bannerPlatformsOf req.platforms)
  have hlen : (expectedAssets req c).length + failedCalls req c = attemptedCalls req := by
    unfold expectedAssets failedCalls attemptedCalls
    by_cases hf : needsFaviconOf req.platforms req.includeFavicon
    · cases hfav : c.faviconResult with
      | ok b =>
        simp only [hf, hfav, faviconAssets, isErr_ok, Bool.and_false, Bool.false_eq_true,
          if_true, if_false, List.length_append, List.length_singleton]
        omega
      | error e =>
        simp only [hf, hfav, faviconAssets, isErr_error, Bool.and_true, if_true,
          List.append_nil]
        omega
    · simp only [hf, Bool.false_and, Bool.false_eq_true, if_false, List.append_nil]
      omega
  refine ⟨hlen, ?_, ?_⟩
  · intro hK
    rw [handleGenerate_provided req c a hba hname hp, generateStep_response]
    rw [if_neg]
    intro he
    rw [he] at hlen
    simp only [List.length_nil, Nat.zero_add] at hlen
    omega
  · intro hK
    rw [handleGenerate_provided req c a hba hname hp, generateStep_response]
    rw [if_pos]
    exact List.length_eq_zero.mp (by omega)

/-- Concrete two-banner request used by the C4 and C5 witnesses. -/
def c4Request : GenRequest :=
  { url := none
    description := none
    brandAnalysis := some acmeAnalysis
    platforms := [ReqPlatform.plat Platform.twitter, ReqPlatform.plat Platform.linkedin]
    style := "minimal"
    customColors := none
    includeFavicon := false }

/-- Collaborators where the twitter banner succeeds and everything else
fails. -/
def c4Collab : Collaborators :=
  { analyzerResult := Except.error "unused"
    bannerResult := fun p =>
      if p == ReqPlatform.plat Platform.twitter then Except.ok "B" else Except.error "boom"
    faviconResult := Except.error "boom" }

/-- Collaborators where every generation call fails. -/
def c4CollabAllFail : Collaborators :=
  { analyzerResult := Except.error "unused"
    bannerResult := fun _ => Except.error "boom"
    faviconResult := Except.error "boom" }

/-- Witness for C4_partial_failure: with K = 1 of N = 2 calls failing the
response is a success with exactly the surviving asset; with K = N = 2 the
response is the HTTP 500 failure. -/
theorem C4_partial_failure_witness :
    (handleGenerate c4Request c4Collab).response =
      ApiResponse.ok [⟨ReqPlatform.plat Platform.twitter, ⟨1500, 500⟩, "B"⟩]
        (summarizeAnalysis acmeAnalysis) ∧
    (handleGenerate c4Request c4CollabAllFail).response =
      ApiResponse.serverError "Failed to generate any images. Please try again." := by
  constructor
  · have h := (C4_partial_failure c4Request c4Collab acmeAnalysis rfl (by decide)
      (by decide)).2.1 (by decide)
    exact h.trans (by rfl)
  · exact (C4_partial_failure c4Request c4CollabAllFail acmeAnalysis rfl (by decide)
      (by decide)).2.2 (by decide)

/-- Claim C5: a request supplying a BrandAnalysis with a non-empty brandName
never invokes the analyzer and that analysis drives generation; any other
request that passes validation invokes the analyzer exactly once, and an
analyzer failure is fatal: the whole request answers HTTP 500 with the
failure message. -/
theorem C5_analysis_short_circuit :
    (∀ (req : GenRequest) (c : Collaborators) (a : BrandAnalysis),
      req.brandAnalysis = some a → a.brandName ≠ "" → req.platforms ≠ [] →
      (handleGenerate req c).analyzerCalls = 0 ∧
      (handleGenerate req c).usedAnalysis = some a) ∧
    (∀ (req : GenRequest) (c : Collaborators),
      (jsTruthy req.url || jsTruthy req.description || req.brandAnalysis.isSome) = true →
      req.platforms ≠ [] →
      (∀ a, req.brandAnalysis = some a → a.brandName = "") →
      (handleGenerate req c).analyzerCalls = 1 ∧
      (∀ msg, c.analyzerResult = Except.error msg →
        (handleGenerate req c).response =
          ApiResponse.serverError (strOrJs msg "Generation failed. Please try again."))) := by
  constructor
  · intro req c a hba hname hp
    rw [handleGenerate_provided req c a hba hname hp]
    exact generateStep_calls a 0 req c
  · intro req c hvalid hp hno
    rw [handleGenerate_analyzes req c hvalid hp hno]
    refine ⟨analyzeThenGenerate_calls req c, ?_⟩
    intro msg hmsg
    unfold analyzeThenGenerate
    rw [hmsg]

/-- Concrete analyzer-backed request used by the C5 witness. -/
def c5NoAnalysisRequest : GenRequest :=
  { url := none
    description := some "Acme Rockets, a space logistics startup"
    brandAnalysis := none
    platforms := [ReqPlatform.plat Platform.twitter]
    style := "minimal"
    customColors := none
    includeFavicon := false }

/-- Collaborators whose analyzer call fails. -/
def c5FailingCollab : Collaborators :=
  { analyzerResult := Except.error "Failed to analyze brand. Please try again."
    bannerResult := fun _ => Except.ok "B"
    faviconResult := Except.ok "F" }

/-- Witness for C5_analysis_short_circuit: the provided analysis skips the
analyzer, and an analyzer failure on a description-only request is fatal. -/
theorem C5_analysis_short_circuit_witness :
    (handleGenerate c4Request c4Collab).analyzerCalls = 0 ∧
    (handleGenerate c4Request c4Collab).usedAnalysis = some acmeAnalysis ∧
    (handleGenerate c5NoAnalysisRequest c5FailingCollab).analyzerCalls = 1 ∧
    (handleGenerate c5NoAnalysisRequest c5FailingCollab).response =
      ApiResponse.serverError "Failed to analyze brand. Please try again." := by
  refine ⟨?_, ?_, ?_, ?_⟩
  · exact (C5_analysis_short_circuit.1 c4Request c4Collab acmeAnalysis rfl (by decide)
      (by decide)).1
  · exact (C5_analysis_short_circuit.1 c4Request c4Collab acmeAnalysis rfl (by decide)
      (by decide)).2
  · exact (C5_analysis_short_circuit.2 c5NoAnalysisRequest c5FailingCollab (by decide)
      (by decide) (fun a h => Option.noConfusion h)).1
  · have h := (C5_analysis_short_circuit.2 c5NoAnalysisRequest c5FailingCollab (by decide)
      (by decide) (fun a h => Option.noConfusion h)).2
      "Failed to analyze brand. Please try again." rfl
    exact h.trans (by rfl)

/-- Claim C8: generation is strictly sequential in the order of the request's
platform list with `favicon` filtered out, followed by the favicon call when
requested, and a fixed `STAGGER_MS = 500` ms wait precedes every individual
image call. -/
theorem C8_sequential_stagger :
    STAGGER_MS = 500 ∧
    (∀ (a : BrandAnalysis) (k : Nat) (req : GenRequest) (c : Collaborators),
      (generateStep a k req c).events =
        (bannerPlatformsOf req.platforms).flatMap
          (fun p => [OrchEvent.wait STAGGER_MS, OrchEvent.callBanner p]) ++
        (if needsFaviconOf req.platforms req.includeFavicon then
          [OrchEvent.wait STAGGER_MS, OrchEvent.callFavicon] else [])) ∧
    (∀ (req : GenRequest) (c : Collaborators) (a : BrandAnalysis),
      req.brandAnalysis = some a → a.brandName ≠ "" → req.platforms ≠ [] →
      (handleGenerate req c).events =
        (bannerPlatformsOf req.platforms).flatMap
          (fun p => [OrchEvent.wait STAGGER_MS, OrchEvent.callBanner p]) ++
        (if needsFaviconOf req.platforms req.includeFavicon then
          [OrchEvent.wait STAGGER_MS, OrchEvent.callFavicon] else [])) := by
  refine ⟨rfl, generateStep_events, ?_⟩
  intro req c a hba hname hp
  rw [handleGenerate_provided req c a hba hname hp]
  exact generateStep_events a 0 req c

/-- Request interleaving favicon between two banner platforms, for the C8
witness. -/
def c8Request : GenRequest :=
  { url := none
    description := none
    brandAnalysis := some acmeAnalysis
    platforms := [ReqPlatform.plat Platform.twitter, ReqPlatform.favicon,
      ReqPlatform.plat Platform.linkedin]
    style := "minimal"
    customColors := none
    includeFavicon := false }

/-- Witness for C8_sequential_stagger: the favicon entry is filtered out of
the banner order and generated last, with a 500 ms wait before every call. -/
theorem C8_sequential_stagger_witness :
    (handleGenerate c8Request c4Collab).events =
      [OrchEvent.wait 500, OrchEvent.callBanner (ReqPlatform.plat Platform.twitter),
       OrchEvent.wait 500, OrchEvent.callBanner (ReqPlatform.plat Platform.linkedin),
       OrchEvent.wait 500, OrchEvent.callFavicon] := by
  have h := C8_sequential_stagger.2.2 c8Request c4Collab acmeAnalysis rfl (by decide)
    (by decide)
  exact h.trans (by rfl)

/-- Claim C6 counterexample: for the unknown style tag `"neon"`, the banner
prompt of `generateBannerWithImagen` embeds the raw tag after `**STYLE:** `
and contains no form of the minimal style guide. -/
theorem C6_counterexample :
    strIncludes (generateBannerPrompt acmeAnalysis Platform.twitter "neon")
      "**STYLE:** neon" = true ∧
    strIncludes (generateBannerPrompt acmeAnalysis Platform.twitter "neon")
      "ULTRA-MINIMAL" = false ∧
    strIncludes (generateBannerPrompt acmeAnalysis Platform.twitter "neon")
      "Ultra-minimal" = false := by
  refine ⟨by decide, by decide, by decide⟩

/-- Claim C6, amended: for a style tag outside the fixed enumeration, the
Analyzer's style guide and the icon and logo style lines fall back to the
`minimal` entries of their tables, but the banner prompt of
`generateBannerWithImagen` uses no style-guide table at all: it interpolates
the unknown tag itself after `**STYLE:** `. -/
theorem C6_unknown_style_fallback (style : String)
    (h1 : STYLE_GUIDES.lookup style = none)
    (h2 : logoStyles.lookup style = none)
    (h3 : iconStyles.lookup style = none) :
    analyzerStyleGuide style = analyzerMinimalGuide ∧
    (logoStyles.lookup style).getD logoMinimalStyle = logoMinimalStyle ∧
    (iconStyles.lookup style).getD iconMinimalStyle = iconMinimalStyle ∧
    strIncludes (generateLogoPrompt acmeAnalysis "neon")
      ("**DESIGN STYLE:** " ++ logoMinimalStyle) = true ∧
    strIncludes (generateIconPrompt acmeAnalysis "neon")
      ("Style: " ++ iconMinimalStyle) = true ∧
    strIncludes (generateBannerPrompt acmeAnalysis Platform.twitter "neon")
      "**STYLE:** neon" = true := by
  refine ⟨?_, ?_, ?_, by decide, by decide, by decide⟩
  · simp [analyzerStyleGuide, h1]
  · simp [h2]
  · simp [h3]

/-- Witness for C6_unknown_style_fallback at the unknown tag `"neon"`. -/
theorem C6_unknown_style_fallback_witness :
    analyzerStyleGuide "neon" = analyzerMinimalGuide ∧
    (logoStyles.lookup "neon").getD logoMinimalStyle = logoMinimalStyle ∧
    (iconStyles.lookup "neon").getD iconMinimalStyle = iconMinimalStyle ∧
    strIncludes (generateLogoPrompt acmeAnalysis "neon")
      ("**DESIGN STYLE:** " ++ logoMinimalStyle) = true ∧
    strIncludes (generateIconPrompt acmeAnalysis "neon")
      ("Style: " ++ iconMinimalStyle) = true ∧
    strIncludes (generateBannerPrompt acmeAnalysis Platform.twitter "neon")
      "**STYLE:** neon" = true :=
  C6_unknown_style_fallback "neon" rfl rfl rfl

/-- Model reply that wraps its JSON in a fenced code block. -/
def fencedReply : String :=
  "Here is the brand analysis you asked for:\n```json\n\x7b \"brandName\": \"Acme Rockets\", \"slogan\": \"To orbit and beyond\" \x7d\n```\nThanks!"

/-- Model reply with a bare JSON object embedded in prose. -/
def proseReply : String :=
  "Sure! Based on the description, \x7b \"brandName\": \"Acme Rockets\", \"visualPrompt\": \"A rocket arcing over a minimal field\" \x7d is my analysis."

/-- Model reply containing no JSON at all. -/
def noJsonReply : String :=
  "I cannot produce a brand analysis for that input."

/-- Model reply with both a fenced JSON object and a second loose object in
the prose; the fenced block wins, while the brace-to-brace match would span
both objects and fail to parse. -/
def orderReply : String :=
  "x ```\x7b \"brandName\": \"Fenced\" \x7d``` and also \x7b \"brandName\": \"Loose\" \x7d."

/-- Claim C7: extraction tries the fenced code block first, then the
brace-to-brace substring of the raw text; a fenced reply and a prose-embedded
object both parse to the structured record with named defaults for the
missing fields, while a non-empty reply with no JSON raises the analysis
error. -/
theorem C7_json_extraction :
    parseAnalysisReply (some fencedReply) = Except.ok { defaultAnalysis with
      brandName := "Acme Rockets", slogan := some "To orbit and beyond",
      title := some "Acme Rockets" } ∧
    parseAnalysisReply (some proseReply) = Except.ok { defaultAnalysis with
      brandName := "Acme Rockets",
      visualPrompt := "A rocket arcing over a minimal field",
      title := some "Acme Rockets" } ∧
    parseAnalysisReply (some noJsonReply) = Except.error analysisFailureMsg ∧
    parseAnalysisReply (some orderReply) = Except.ok { defaultAnalysis with
      brandName := "Fenced", title := some "Fenced" } ∧
    extractJsonStr fencedReply =
      "\x7b \"brandName\": \"Acme Rockets\", \"slogan\": \"To orbit and beyond\" \x7d" ∧
    extractJsonStr proseReply =
      "\x7b \"brandName\": \"Acme Rockets\", \"visualPrompt\": \"A rocket arcing over a minimal field\" \x7d" := by
  refine ⟨rfl, rfl, rfl, rfl, rfl, rfl⟩

/-- Claim C9: an empty or absent model reply is replaced by the empty object
literal before extraction, so `analyzeBrand` does not fail but returns the
all-default record. -/
theorem C9_empty_reply_defaults :
    parseAnalysisReply none = Except.ok defaultAnalysis ∧
    parseAnalysisReply (some "") = Except.ok defaultAnalysis ∧
    jsOr none "\x7b\x7d" = "\x7b\x7d" ∧
    jsOr (some "") "\x7b\x7d" = "\x7b\x7d" ∧
    defaultAnalysis.brandName = "Brand" ∧
    defaultAnalysis.summary = "Modern digital service" ∧
    defaultAnalysis.brandColors = ["#3b82f6", "#ffffff", "#000000"] ∧
    defaultAnalysis.visualPrompt = "" := by
  refine ⟨rfl, rfl, rfl, rfl, rfl, rfl, rfl, rfl⟩

/-- Analysis with an empty color palette, for the C10 theorems. -/
def noColorAnalysis : BrandAnalysis :=
  { acmeAnalysis with brandColors := [] }

/-- Claim C10 counterexample: with an empty `brandColors` list the icon
prompt of `generateIconWithImagen` contains neither default color: its color
line is the fixed text naming a teal/green and a dark navy, so the guarded
defaults are never substituted into that prompt. -/
theorem C10_counterexample :
    strIncludes (generateIconPrompt noColorAnalysis "minimal") "#3b82f6" = false ∧
    strIncludes (generateIconPrompt noColorAnalysis "minimal") "#ffffff" = false ∧
    strIncludes (generateIconPrompt noColorAnalysis "minimal") iconColorSentence = true := by
  refine ⟨by decide, by decide, by decide⟩

/-- Claim C10, amended: out-of-range color accesses are guarded
(`xs[i] || default` yields the default), and with an empty palette
`generateLogoWithImagen` embeds the defaults `#3b82f6` and `#ffffff` in its
prompt, while `generateIconWithImagen` computes the same guarded values but
its prompt keeps the fixed color sentence and never mentions them. -/
theorem C10_color_guard :
    (∀ (xs : List String) (i : Nat) (d : String), xs.length ≤ i → jsIndexOr xs i d = d) ∧
    strIncludes (generateLogoPrompt noColorAnalysis "minimal")
      "- Primary color: #3b82f6\n- Secondary color: #ffffff" = true ∧
    strIncludes (generateIconPrompt noColorAnalysis "minimal") iconColorSentence = true ∧
    strIncludes (generateIconPrompt noColorAnalysis "minimal") "#3b82f6" = false := by
  refine ⟨?_, by decide, by decide, by decide⟩
  intro xs i d h
  unfold jsIndexOr
  rw [List.get?_eq_none.mpr h]

/-- Witness for C10_color_guard: the guarded accesses on an empty and a
one-element palette yield the documented defaults. -/
theorem C10_color_guard_witness :
    jsIndexOr ([] : List String) 0 "#3b82f6" = "#3b82f6" ∧
    jsIndexOr ["#112233"] 1 "#ffffff" = "#ffffff" :=
  ⟨C10_color_guard.1 [] 0 "#3b82f6" (by decide),
   C10_color_guard.1 ["#112233"] 1 "#ffffff" (by decide)⟩


end Brandsnap
